import Mathlib

/-!
Verification development for the PythonMonkey value-marshalling layer.

The C++ sources embedded here (shallowly, as executable Lean definitions) are:
  * `IntType::IntType(JSContext *, JS::BigInt *)` — the JS→Python BigInt decoder,
  * `IntType::toJsBigInt` — the Python→JS BigInt encoder,
  * `pyTypeFactory(PyObject *)` — the Python-side type dispatcher,
  * `pyTypeFactory(JSContext *, JS::Rooted<JSObject *> *, JS::HandleValue)` —
    the JS-side type dispatcher,
  * `pyTypeFactorySafe` — the error-swallowing variant of the JS-side dispatcher,
all from `src/IntType.cc` of the repository.

Modelling conventions:
  * Machine integers become `Nat`/`Int` with explicit `% 2 ^ w` where overflow
    matters (the build is assumed 64-bit little-endian, as the source requires).
  * A `JS::BigInt *` is modelled by its observable raw layout: a flags word
    (sign bit = `0b1000`), the digit-count header field, and the 64-bit digit
    storage in least-significant-first order.  `((uint32_t *)bigint)[1]` and the
    digit pointer of the C code become the `digitCount` and `digits` fields.
  * A `PyLongObject *` is modelled by its signed length `Py_SIZE` and its
    30-bit digit storage.  Allocation identity (needed to talk about "fresh
    object, never aliased") is modelled by an `objId` stamp: each allocating
    CPython primitive stamps the allocation counter it is given.
  * External runtime primitives (CPython and SpiderMonkey API calls) are
    modelled from their documented behaviour; the code of this repository is
    translated line by line.
  * Failure is `Option`/an explicit Python error state (`PyErrState`).
-/

/-! ## Constants from the C sources -/

/-- Constant from `#define SIGN_BIT_MASK 0b1000` — sign bit of the SpiderMonkey BigInt flags word. -/
def SIGN_BIT_MASK : Nat := 8

/-- Constant from `#define JS_DIGIT_BIT JS_BITS_PER_WORD` — 64 on the 64-bit build assumed by the source. -/
def JS_DIGIT_BIT : Nat := 64

/-- Constant from `#define JS_DIGIT_BYTE (sizeof(js_digit_t)/sizeof(uint8_t))`, i.e. 8. -/
def JS_DIGIT_BYTE : Nat := 8

/-- Base of one SpiderMonkey BigInt digit (`js_digit_t` = `uintptr_t`, 64-bit). -/
def JS_DIGIT_BASE : Nat := 2 ^ 64

/-- Constant `PYLONG_BITS_IN_DIGIT` — 30 on a 64-bit CPython build. -/
def PY_DIGIT_BIT : Nat := 30

/-- Base of one CPython long digit. -/
def PY_DIGIT_BASE : Nat := 2 ^ 30

/-! ## Little-endian byte and digit decompositions -/

/-- The `byteCount` least-significant base-256 digits of `n`,
least-significant-first (fixed length, zero padded). -/
def natToBytesLE : Nat → Nat → List Nat
  | _, 0 => []
  | n, k + 1 => n % 256 :: natToBytesLE (n / 256) k

/-- Fuel-driven little-endian base-`B` decomposition of `n`: minimal digit list
(no leading zeros, `0` becomes `[]`) provided `n ≤ fuel`. -/
def natToDigitsLE (B : Nat) : Nat → Nat → List Nat
  | _, 0 => []
  | 0, _ + 1 => []
  | fuel + 1, n + 1 => (n + 1) % B :: natToDigitsLE B fuel ((n + 1) / B)

/-- Canonical (minimal) little-endian base-`B` digit list of `n`. -/
def canonDigits (B n : Nat) : List Nat := natToDigitsLE B n n

/-! ## Model of `PyLongObject` (CPython arbitrary-precision integer) -/

/-- A CPython `PyLongObject`: its signed length `Py_SIZE` (negative exactly when
the number is negative), its base-`2^30` digit storage (least-significant
first), an allocation stamp, and the flag for the `pythonmonkey.bigint`
type tag set through `Py_SET_TYPE`. -/
structure PyLongObject where
  obSize : Int
  digits : List Nat
  objId : Nat
  isPMBigInt : Bool
deriving DecidableEq, Repr

/-- Magnitude of a `PyLongObject`: value of the first `|Py_SIZE|` digits. -/
def pyLongMag (p : PyLongObject) : Nat :=
  Nat.ofDigits PY_DIGIT_BASE (p.digits.take p.obSize.natAbs)

/-- Signed mathematical value of a `PyLongObject`. -/
def pyLongValue (p : PyLongObject) : Int :=
  if p.obSize < 0 then -(pyLongMag p : Int) else (pyLongMag p : Int)

/-- Modelled CPython primitive `_PyLong_New(0)`: a fresh zero object (bypasses
the small-int cache, hence stamps the fresh allocation id). -/
def pyLong_New0 (allocId : Nat) : PyLongObject :=
  { obSize := 0, digits := [], objId := allocId, isPMBigInt := false }

/-- Modelled CPython primitive `_PyLong_FromByteArray(bytes, n, little_endian=1,
is_signed=0)`: build a canonical nonnegative long from little-endian bytes. -/
def pyLong_FromByteArrayLE (bytes : List Nat) (allocId : Nat) : PyLongObject :=
  let n := Nat.ofDigits 256 bytes
  { obSize := ((canonDigits PY_DIGIT_BASE n).length : Int),
    digits := canonDigits PY_DIGIT_BASE n, objId := allocId, isPMBigInt := false }

/-- Modelled CPython primitive `_PyLong_NumBits`: bit length of the magnitude
(0 for value 0).  Cannot overflow in the `Nat` model, so it never fails here. -/
def pyLong_NumBits (p : PyLongObject) : Nat := (canonDigits 2 (pyLongMag p)).length

/-- Modelled CPython primitive `PyLong_AsUnsignedLongLong`: the magnitude when
the object is nonnegative and fits in 64 bits, otherwise the C error sentinel
`(unsigned long long)-1`. -/
def pyLong_AsUnsignedLongLong (p : PyLongObject) : Nat :=
  if 0 ≤ p.obSize ∧ pyLongMag p < 2 ^ 64 then pyLongMag p else 2 ^ 64 - 1

/-- Modelled CPython primitive `_PyLong_AsByteArray(obj, bytes, byteCount,
is_little_endian=0, is_signed=0)`: `byteCount` big-endian magnitude bytes. -/
def pyLong_AsByteArrayBE (p : PyLongObject) (byteCount : Nat) : List Nat :=
  (natToBytesLE (pyLongMag p) byteCount).reverse

/-! ## Model of `JS::BigInt` (SpiderMonkey arbitrary-precision integer) -/

/-- A SpiderMonkey `JS::BigInt`, by its raw layout as the C code reads it:
the cell-header flags word (`((uint32_t *)bigint)[0]`, sign bit `0b1000`),
the digit count (`((uint32_t *)bigint)[1]`) and the 64-bit digit storage
(inline or heap — the distinction only affects where the bytes live, which the
model abstracts into the `digits` list), least-significant digit first. -/
structure JSBigInt where
  flags : Nat
  digitCount : Nat
  digits : List Nat
deriving DecidableEq, Repr

/-- SpiderMonkey API `BigIntIsNegative`: tests the sign bit of the flags word. -/
def BigIntIsNegative (b : JSBigInt) : Bool := b.flags &&& SIGN_BIT_MASK != 0

/-- Magnitude of a `JSBigInt`: value of its first `digitCount` 64-bit digits. -/
def jsBigIntMag (b : JSBigInt) : Nat :=
  Nat.ofDigits JS_DIGIT_BASE (b.digits.take b.digitCount)

/-- Signed mathematical value of a `JSBigInt`. -/
def jsBigIntValue (b : JSBigInt) : Int :=
  if BigIntIsNegative b then -(jsBigIntMag b : Int) else (jsBigIntMag b : Int)

/-- A canonical nonnegative SpiderMonkey BigInt holding the value `n`:
minimal 64-bit digit count (0 digits for value 0), sign bit clear. -/
def jsBigIntOfNat (n : Nat) : JSBigInt :=
  { flags := 0, digitCount := (canonDigits JS_DIGIT_BASE n).length,
    digits := canonDigits JS_DIGIT_BASE n }

/-- Modelled SpiderMonkey primitive `JS::detail::BigIntFromUint64`. -/
def BigIntFromUint64 (u : Nat) : JSBigInt := jsBigIntOfNat (u % 2 ^ 64)

/-- Table from `static const char HEX_CHAR_LOOKUP_TABLE[] = "0123456789ABCDEF";` -/
def HEX_CHAR_LOOKUP_TABLE : List Char :=
  ['0', '1', '2', '3', '4', '5', '6', '7', '8', '9', 'A', 'B', 'C', 'D', 'E', 'F']

/-- Numeric value of an ASCII hex digit (SpiderMonkey's alphanumeric-to-number
conversion used by `SimpleStringToBigInt`). -/
def hexDigitVal (c : Char) : Nat :=
  if '0' ≤ c ∧ c ≤ '9' then c.toNat - '0'.toNat
  else if 'A' ≤ c ∧ c ≤ 'F' then c.toNat - 'A'.toNat + 10
  else if 'a' ≤ c ∧ c ≤ 'f' then c.toNat - 'a'.toNat + 10
  else 0

/-- Modelled SpiderMonkey primitive `JS::SimpleStringToBigInt(cx, span, 16)`:
parse big-endian hex characters and build the canonical nonnegative BigInt. -/
def SimpleStringToBigInt (chars : List Char) : JSBigInt :=
  jsBigIntOfNat (chars.foldl (fun acc c => acc * 16 + hexDigitVal c) 0)

/-! ## The BigInt codec, translated from `src/IntType.cc` -/

/-- Expression `uint32_t jsDigitCount = bitCount == 0 ? 1 : (bitCount - 1) / JS_DIGIT_BIT + 1;`
(line 88 of `IntType.cc`). -/
def jsDigitCountOfBits (bitCount : Nat) : Nat :=
  if bitCount = 0 then 1 else (bitCount - 1) / JS_DIGIT_BIT + 1

/-- The source object after `toJsBigInt`'s temporary `Py_SET_SIZE(pyObject,
-pyDigitCount)` (lines 91-97): stored length forced positive when negative. -/
def IntType.toJsBigIntForced (p : PyLongObject) : PyLongObject :=
  if p.obSize < 0 then { p with obSize := -p.obSize } else p

/-- Model of `IntType::toJsBigInt` (`IntType.cc` lines 82-139).  Returns the
constructed BigInt together with the final state of the (temporarily mutated)
source `PyLongObject`.  The `_PyLong_NumBits` failure branch of line 86 cannot
fire in the `Nat` model (no size_t overflow), so the result is total. -/
def IntType.toJsBigInt (p : PyLongObject) : JSBigInt × PyLongObject :=
  let bitCount := pyLong_NumBits p
  let jsDigitCount := jsDigitCountOfBits bitCount
  let pyDigitCount : Int := p.obSize
  let isNegative := pyDigitCount < 0
  let pObj := IntType.toJsBigIntForced p
  let bigint :=
    if jsDigitCount ≤ 1 then
      BigIntFromUint64 (pyLong_AsUnsignedLongLong pObj)
    else
      let byteCount := JS_DIGIT_BYTE * jsDigitCount
      let bytes := pyLong_AsByteArrayBE pObj byteCount
      let chars := bytes.flatMap (fun b =>
        [HEX_CHAR_LOOKUP_TABLE.getD ((b >>> 4) &&& 0xf) 'X',
         HEX_CHAR_LOOKUP_TABLE.getD (b &&& 0xf) 'X'])
      SimpleStringToBigInt chars
  if isNegative then
    ({ bigint with flags := bigint.flags ||| SIGN_BIT_MASK },
     { pObj with obSize := pyDigitCount })
  else
    (bigint, pObj)

/-- Model of `IntType::IntType(JSContext *, JS::BigInt *)` (`IntType.cc` lines
33-80), the JS→Python BigInt decoder.  `allocId` is the allocation counter
stamped on the freshly allocated Python object. -/
def IntType.fromJsBigInt (bigint : JSBigInt) (allocId : Nat) : PyLongObject :=
  let isNegative := BigIntIsNegative bigint
  let jsDigitCount := bigint.digitCount
  let bytes := (bigint.digits.take jsDigitCount).flatMap
    (fun d => natToBytesLE d JS_DIGIT_BYTE)
  let pyObject :=
    if jsDigitCount = 0 then
      pyLong_New0 allocId
    else
      pyLong_FromByteArrayLE bytes allocId
  let pyObject :=
    if isNegative then { pyObject with obSize := -pyObject.obSize } else pyObject
  { pyObject with isPMBigInt := true }

/-! ## Arithmetic facts about the byte / digit decompositions -/

theorem natToBytesLE_length (n k : Nat) : (natToBytesLE n k).length = k := by
  induction k generalizing n with
  | zero => rfl
  | succ k ih => simp [natToBytesLE, ih]

theorem natToBytesLE_lt (n k : Nat) : ∀ x ∈ natToBytesLE n k, x < 256 := by
  induction k generalizing n with
  | zero => simp [natToBytesLE]
  | succ k ih =>
    intro x hx
    simp only [natToBytesLE, List.mem_cons] at hx
    rcases hx with h | h
    · omega
    · exact ih _ x h

theorem ofDigits_natToBytesLE (k n : Nat) :
    Nat.ofDigits 256 (natToBytesLE n k) = n % 256 ^ k := by
  induction k generalizing n with
  | zero => simp [natToBytesLE, Nat.ofDigits, Nat.mod_one]
  | succ k ih =>
    have hpow : (256 : Nat) ^ (k + 1) = 256 * 256 ^ k := by
      rw [pow_succ, Nat.mul_comm]
    rw [natToBytesLE, Nat.ofDigits_cons, ih, hpow, Nat.mod_mul]

theorem natToDigitsLE_ofDigits (B : Nat) (hB : 2 ≤ B) :
    ∀ fuel n, n ≤ fuel → Nat.ofDigits B (natToDigitsLE B fuel n) = n := by
  intro fuel
  induction fuel with
  | zero =>
    intro n hn
    have : n = 0 := Nat.le_zero.mp hn
    subst this
    simp [natToDigitsLE, Nat.ofDigits]
  | succ f ih =>
    intro n hn
    match n with
    | 0 => simp [natToDigitsLE, Nat.ofDigits]
    | m + 1 =>
      have hdiv : (m + 1) / B ≤ f := by
        have : (m + 1) / B < m + 1 := Nat.div_lt_self (Nat.succ_pos m) hB
        omega
      rw [natToDigitsLE, Nat.ofDigits_cons, ih _ hdiv, Nat.mod_add_div]

theorem natToDigitsLE_lt (B : Nat) (hB : 0 < B) :
    ∀ fuel n, ∀ x ∈ natToDigitsLE B fuel n, x < B := by
  intro fuel
  induction fuel with
  | zero =>
    intro n x hx
    match n with
    | 0 => simp [natToDigitsLE] at hx
    | m + 1 => simp [natToDigitsLE] at hx
  | succ f ih =>
    intro n x hx
    match n with
    | 0 => simp [natToDigitsLE] at hx
    | m + 1 =>
      simp only [natToDigitsLE, List.mem_cons] at hx
      rcases hx with h | h
      · subst h; exact Nat.mod_lt _ hB
      · exact ih _ x h

theorem natToDigitsLE_ub (B : Nat) (hB : 2 ≤ B) :
    ∀ fuel n, n ≤ fuel → n < B ^ (natToDigitsLE B fuel n).length := by
  intro fuel
  induction fuel with
  | zero =>
    intro n hn
    have : n = 0 := Nat.le_zero.mp hn
    subst this
    simp [natToDigitsLE]
  | succ f ih =>
    intro n hn
    match n with
    | 0 => simp [natToDigitsLE]
    | m + 1 =>
      have hpos : 0 < B := by omega
      have hdiv : (m + 1) / B ≤ f := by
        have : (m + 1) / B < m + 1 := Nat.div_lt_self (Nat.succ_pos m) hB
        omega
      have hih := ih _ hdiv
      rw [natToDigitsLE]
      simp only [List.length_cons]
      have hmod : (m + 1) % B < B := Nat.mod_lt _ hpos
      have hsplit : B * ((m + 1) / B) + (m + 1) % B = m + 1 := Nat.div_add_mod _ _
      have hdist : B * ((m + 1) / B + 1) = B * ((m + 1) / B) + B := by ring
      calc m + 1 < B * ((m + 1) / B + 1) := by omega
    _ ≤ B * B ^ (natToDigitsLE B f ((m + 1) / B)).length := by
          exact Nat.mul_le_mul_left _ hih
    _ = B ^ ((natToDigitsLE B f ((m + 1) / B)).length + 1) := by
          rw [pow_succ, Nat.mul_comm]

theorem canonDigits_ofDigits (B n : Nat) (hB : 2 ≤ B) :
    Nat.ofDigits B (canonDigits B n) = n :=
  natToDigitsLE_ofDigits B hB n n le_rfl

theorem canonDigits_lt (B n : Nat) (hB : 0 < B) : ∀ x ∈ canonDigits B n, x < B :=
  natToDigitsLE_lt B hB n n

theorem canonDigits_ub (B n : Nat) (hB : 2 ≤ B) : n < B ^ (canonDigits B n).length :=
  natToDigitsLE_ub B hB n n le_rfl

theorem canonDigits_zero (B : Nat) : canonDigits B 0 = [] := rfl

theorem canonDigits_len_pos (B n : Nat) (h : n ≠ 0) : 0 < (canonDigits B n).length := by
  match n with
  | 0 => exact absurd rfl h
  | m + 1 => simp [canonDigits, natToDigitsLE]

/-! ## Correctness of the hex-string detour of `toJsBigInt` -/

theorem hexTable_val : ∀ x, x < 16 → hexDigitVal (HEX_CHAR_LOOKUP_TABLE.getD x 'X') = x := by
  decide

theorem and_fifteen (x : Nat) : x &&& 15 = x % 16 := by
  have h := Nat.and_pow_two_sub_one_eq_mod x 4
  norm_num at h
  exact h

theorem shiftr_four (x : Nat) : x >>> 4 = x / 16 := by
  have h := Nat.shiftRight_eq_div_pow x 4
  norm_num at h
  exact h

/-- The two hex characters the conversion loop of `toJsBigInt` emits for one
byte parse back to that byte (high nibble, then low nibble). -/
theorem hexPair_val (b : Nat) (hb : b < 256) :
    hexDigitVal (HEX_CHAR_LOOKUP_TABLE.getD ((b >>> 4) &&& 0xf) 'X') * 16 +
      hexDigitVal (HEX_CHAR_LOOKUP_TABLE.getD (b &&& 0xf) 'X') = b := by
  rw [shiftr_four, and_fifteen, and_fifteen]
  have h1 : b / 16 < 16 := by omega
  have h2 : b % 16 < 16 := by omega
  rw [Nat.mod_eq_of_lt h1, hexTable_val _ h1, hexTable_val _ h2]
  omega

/-- Parsing the per-byte hex pairs in base 16 computes the same fold as reading
the bytes directly in base 256. -/
theorem hexParse_flatMap (bs : List Nat) (h : ∀ x ∈ bs, x < 256) :
    ∀ acc : Nat,
      List.foldl (fun acc c => acc * 16 + hexDigitVal c) acc
        (bs.flatMap (fun b =>
          [HEX_CHAR_LOOKUP_TABLE.getD ((b >>> 4) &&& 0xf) 'X',
           HEX_CHAR_LOOKUP_TABLE.getD (b &&& 0xf) 'X'])) =
      List.foldl (fun acc b => acc * 256 + b) acc bs := by
  induction bs with
  | nil => intro acc; rfl
  | cons b bs ih =>
    intro acc
    rw [List.flatMap_cons, List.foldl_append]
    simp only [List.foldl_cons, List.foldl_nil]
    rw [ih (fun x hx => h x (List.mem_cons_of_mem _ hx))]
    have hb : b < 256 := h b (List.mem_cons_self _ _)
    have key := hexPair_val b hb
    congr 1
    omega

/-- Folding a big-endian digit list (a reversed little-endian list) in base `B`. -/
theorem foldl_base_reverse (B : Nat) (l : List Nat) :
    ∀ acc : Nat,
      List.foldl (fun a x => a * B + x) acc l.reverse =
        acc * B ^ l.length + Nat.ofDigits B l := by
  induction l with
  | nil => intro acc; simp [Nat.ofDigits]
  | cons d ds ih =>
    intro acc
    rw [List.reverse_cons, List.foldl_append, ih acc]
    simp only [List.foldl_cons, List.foldl_nil, Nat.ofDigits_cons, List.length_cons]
    rw [pow_succ]
    ring

/-! ## Characterization of the two codec directions -/

theorem pyLongMag_forced (p : PyLongObject) :
    pyLongMag (IntType.toJsBigIntForced p) = pyLongMag p := by
  unfold IntType.toJsBigIntForced pyLongMag
  split
  · simp [Int.natAbs_neg]
  · rfl

theorem toJsBigIntForced_nonneg (p : PyLongObject) :
    0 ≤ (IntType.toJsBigIntForced p).obSize := by
  unfold IntType.toJsBigIntForced
  split
  · simp only
    omega
  · omega

theorem pyLongMag_lt_numBits (p : PyLongObject) :
    pyLongMag p < 2 ^ pyLong_NumBits p :=
  canonDigits_ub 2 (pyLongMag p) le_rfl

theorem jsDigitCountOfBits_le_one (b : Nat) (h : jsDigitCountOfBits b ≤ 1) : b ≤ 64 := by
  unfold jsDigitCountOfBits JS_DIGIT_BIT at h
  split at h
  · omega
  · omega

theorem bits_le_digit_mul (b : Nat) : b ≤ JS_DIGIT_BIT * jsDigitCountOfBits b := by
  unfold jsDigitCountOfBits JS_DIGIT_BIT
  split
  · omega
  · omega

/-- Fast path of `toJsBigInt`: the single-digit conversion through
`PyLong_AsUnsignedLongLong` produces the canonical BigInt of the magnitude. -/
theorem toJsBigInt_fast (p : PyLongObject)
    (h : jsDigitCountOfBits (pyLong_NumBits p) ≤ 1) :
    BigIntFromUint64 (pyLong_AsUnsignedLongLong (IntType.toJsBigIntForced p)) =
      jsBigIntOfNat (pyLongMag p) := by
  have h64 : pyLong_NumBits p ≤ 64 := jsDigitCountOfBits_le_one _ h
  have hm : pyLongMag p < 2 ^ 64 :=
    lt_of_lt_of_le (pyLongMag_lt_numBits p) (Nat.pow_le_pow_right (by norm_num) h64)
  have hval : pyLong_AsUnsignedLongLong (IntType.toJsBigIntForced p) = pyLongMag p := by
    unfold pyLong_AsUnsignedLongLong
    rw [pyLongMag_forced]
    exact if_pos ⟨toJsBigIntForced_nonneg p, hm⟩
  rw [hval]
  unfold BigIntFromUint64
  rw [Nat.mod_eq_of_lt hm]

/-- Slow path of `toJsBigInt`: the big-endian byte export, hex re-encoding and
base-16 parse produce the canonical BigInt of the magnitude. -/
theorem toJsBigInt_slow (p : PyLongObject) :
    SimpleStringToBigInt
      ((pyLong_AsByteArrayBE (IntType.toJsBigIntForced p)
          (JS_DIGIT_BYTE * jsDigitCountOfBits (pyLong_NumBits p))).flatMap
        (fun b =>
          [HEX_CHAR_LOOKUP_TABLE.getD ((b >>> 4) &&& 0xf) 'X',
           HEX_CHAR_LOOKUP_TABLE.getD (b &&& 0xf) 'X'])) =
      jsBigIntOfNat (pyLongMag p) := by
  set cnt := jsDigitCountOfBits (pyLong_NumBits p) with hcnt
  have hble : pyLong_NumBits p ≤ 64 * cnt := by
    have := bits_le_digit_mul (pyLong_NumBits p)
    unfold JS_DIGIT_BIT at this
    omega
  have hmag : pyLongMag p < 256 ^ (8 * cnt) := by
    have h1 : pyLongMag p < 2 ^ (64 * cnt) :=
      lt_of_lt_of_le (pyLongMag_lt_numBits p) (Nat.pow_le_pow_right (by norm_num) hble)
    have h2 : (256 : Nat) ^ (8 * cnt) = 2 ^ (64 * cnt) := by
      have : (256 : Nat) = 2 ^ 8 := by norm_num
      rw [this, ← pow_mul]
      congr 1
      ring
    rw [h2]
    exact h1
  have hbytes : ∀ x ∈ natToBytesLE (pyLongMag (IntType.toJsBigIntForced p)) (JS_DIGIT_BYTE * cnt),
      x < 256 := natToBytesLE_lt _ _
  unfold SimpleStringToBigInt pyLong_AsByteArrayBE
  congr 1
  rw [hexParse_flatMap _ (fun x hx => hbytes x (List.mem_reverse.mp hx)) 0]
  rw [foldl_base_reverse 256 _ 0]
  rw [ofDigits_natToBytesLE]
  rw [pyLongMag_forced, natToBytesLE_length]
  simp only [Nat.zero_mul, Nat.zero_add]
  unfold JS_DIGIT_BYTE
  exact Nat.mod_eq_of_lt hmag

/-- The encoder `toJsBigInt` produces exactly the canonical BigInt of the source magnitude,
with the sign bit OR-ed in afterwards when the source was negative. -/
theorem toJsBigInt_fst (p : PyLongObject) :
    (IntType.toJsBigInt p).1 =
      (if p.obSize < 0 then
        { jsBigIntOfNat (pyLongMag p) with
            flags := (jsBigIntOfNat (pyLongMag p)).flags ||| SIGN_BIT_MASK }
       else jsBigIntOfNat (pyLongMag p)) := by
  simp only [IntType.toJsBigInt]
  split_ifs with h1 h2 h3
  · rw [toJsBigInt_fast p h2]
  · rw [toJsBigInt_slow p]
  · rw [toJsBigInt_fast p h3]
  · rw [toJsBigInt_slow p]

/-- The encoder `toJsBigInt` restores the source object exactly (the temporary
`Py_SET_SIZE` mutation is undone on every successful return path). -/
theorem toJsBigInt_snd (p : PyLongObject) : (IntType.toJsBigInt p).2 = p := by
  rcases p with ⟨s, ds, oid, tag⟩
  unfold IntType.toJsBigInt IntType.toJsBigIntForced
  by_cases hneg : s < 0 <;> simp [hneg]

/-- Concatenating the 8 little-endian bytes of each 64-bit digit reads back, in
base 256, to the value of the digit list in base `2^64`. -/
theorem ofDigits_flatMap_bytes (ds : List Nat) (h : ∀ d ∈ ds, d < JS_DIGIT_BASE) :
    Nat.ofDigits 256 (ds.flatMap (fun d => natToBytesLE d JS_DIGIT_BYTE)) =
      Nat.ofDigits JS_DIGIT_BASE ds := by
  induction ds with
  | nil => rfl
  | cons d ds ih =>
    have hd : d < JS_DIGIT_BASE := h d (List.mem_cons_self _ _)
    have h256 : (256 : Nat) ^ JS_DIGIT_BYTE = JS_DIGIT_BASE := by
      unfold JS_DIGIT_BYTE JS_DIGIT_BASE
      norm_num
    rw [List.flatMap_cons, Nat.ofDigits_append, natToBytesLE_length,
      ofDigits_natToBytesLE, ih (fun x hx => h x (List.mem_cons_of_mem _ hx)),
      Nat.ofDigits_cons, h256, Nat.mod_eq_of_lt hd]

/-- Closed form of the decoder on a nonzero digit count. -/
theorem fromJsBigInt_eq (b : JSBigInt) (ctr : Nat) (h0 : ¬b.digitCount = 0) :
    IntType.fromJsBigInt b ctr =
      { obSize :=
          (if BigIntIsNegative b then
            -(((canonDigits PY_DIGIT_BASE (Nat.ofDigits 256
                ((b.digits.take b.digitCount).flatMap
                  (fun d => natToBytesLE d JS_DIGIT_BYTE)))).length : Int))
           else
            (((canonDigits PY_DIGIT_BASE (Nat.ofDigits 256
                ((b.digits.take b.digitCount).flatMap
                  (fun d => natToBytesLE d JS_DIGIT_BYTE)))).length : Int))),
        digits := canonDigits PY_DIGIT_BASE (Nat.ofDigits 256
          ((b.digits.take b.digitCount).flatMap (fun d => natToBytesLE d JS_DIGIT_BYTE))),
        objId := ctr, isPMBigInt := true } := by
  simp only [IntType.fromJsBigInt, pyLong_FromByteArrayLE]
  rw [if_neg h0]
  cases hb : BigIntIsNegative b <;> simp [hb]

/-- Value correctness of the decoder: on any well-formed BigInt (digit list
matching the digit-count header, digits in range) the constructed Python long
has the BigInt's signed value. -/
theorem fromJsBigInt_value (b : JSBigInt) (ctr : Nat)
    (hlen : b.digits.length = b.digitCount)
    (hlt : ∀ d ∈ b.digits, d < JS_DIGIT_BASE) :
    pyLongValue (IntType.fromJsBigInt b ctr) = jsBigIntValue b := by
  have htake : b.digits.take b.digitCount = b.digits := by
    rw [← hlen]
    exact List.take_length _
  have hmagval : jsBigIntMag b = Nat.ofDigits JS_DIGIT_BASE b.digits := by
    unfold jsBigIntMag
    rw [htake]
  by_cases h0 : b.digitCount = 0
  · have hnil : b.digits = [] := by
      have hl := hlen
      rw [h0] at hl
      exact List.eq_nil_of_length_eq_zero hl
    cases hneg : BigIntIsNegative b <;>
      simp [IntType.fromJsBigInt, h0, hneg, hnil, pyLong_New0, pyLongValue, pyLongMag,
        jsBigIntValue, jsBigIntMag, Nat.ofDigits]
  · rw [fromJsBigInt_eq b ctr h0]
    have hnval : Nat.ofDigits 256 ((b.digits.take b.digitCount).flatMap
        (fun d => natToBytesLE d JS_DIGIT_BYTE)) = jsBigIntMag b := by
      rw [htake, ofDigits_flatMap_bytes b.digits hlt, hmagval]
    rw [hnval]
    by_cases hz : jsBigIntMag b = 0
    · cases hneg : BigIntIsNegative b <;>
        simp [pyLongValue, pyLongMag, jsBigIntValue, hneg, hz, canonDigits_zero, Nat.ofDigits]
    · have hL : 0 < (canonDigits PY_DIGIT_BASE (jsBigIntMag b)).length :=
        canonDigits_len_pos _ _ hz
      have hof : Nat.ofDigits PY_DIGIT_BASE (canonDigits PY_DIGIT_BASE (jsBigIntMag b)) =
          jsBigIntMag b :=
        canonDigits_ofDigits _ _ (by norm_num [PY_DIGIT_BASE])
      cases hneg : BigIntIsNegative b
      · have hnn : ¬(((canonDigits PY_DIGIT_BASE (jsBigIntMag b)).length : Int) < 0) := by
          omega
        simp [pyLongValue, pyLongMag, jsBigIntValue, hneg, hnn, Int.natAbs_ofNat,
          List.take_length, hof]
      · have hlt0 : -(((canonDigits PY_DIGIT_BASE (jsBigIntMag b)).length : Int)) < 0 := by
          omega
        simp [pyLongValue, pyLongMag, jsBigIntValue, hneg, hlt0, Int.natAbs_neg,
          Int.natAbs_ofNat, List.take_length, hof]

/-- Claim C1: for every arbitrary-precision integer (any sign, any magnitude),
encoding a Python long with `toJsBigInt` and decoding the result back with the
`IntType(JSContext *, JS::BigInt *)` constructor yields a value equal to the
original, sign included. -/
theorem bigint_roundtrip_preserves_value (p : PyLongObject) (ctr : Nat) :
    pyLongValue (IntType.fromJsBigInt (IntType.toJsBigInt p).1 ctr) = pyLongValue p := by
  have hfst := toJsBigInt_fst p
  have hd : ((IntType.toJsBigInt p).1).digits = canonDigits JS_DIGIT_BASE (pyLongMag p) := by
    rw [hfst]
    split_ifs <;> rfl
  have hc : ((IntType.toJsBigInt p).1).digitCount =
      (canonDigits JS_DIGIT_BASE (pyLongMag p)).length := by
    rw [hfst]
    split_ifs <;> rfl
  have hlen : ((IntType.toJsBigInt p).1).digits.length = ((IntType.toJsBigInt p).1).digitCount := by
    rw [hd, hc]
  have hlt : ∀ d ∈ ((IntType.toJsBigInt p).1).digits, d < JS_DIGIT_BASE := by
    rw [hd]
    exact canonDigits_lt _ _ (by norm_num [JS_DIGIT_BASE])
  have hneg : BigIntIsNegative ((IntType.toJsBigInt p).1) = decide (p.obSize < 0) := by
    rw [hfst]
    split_ifs with h
    · simp [BigIntIsNegative, jsBigIntOfNat, SIGN_BIT_MASK, h]
    · simp [BigIntIsNegative, jsBigIntOfNat, SIGN_BIT_MASK, h]
  have hmag : jsBigIntMag ((IntType.toJsBigInt p).1) = pyLongMag p := by
    unfold jsBigIntMag
    rw [hd, hc, List.take_length]
    exact canonDigits_ofDigits _ _ (by norm_num [JS_DIGIT_BASE])
  rw [fromJsBigInt_value _ ctr hlen hlt]
  unfold jsBigIntValue pyLongValue
  rw [hneg, hmag]
  by_cases h : p.obSize < 0 <;> simp [h]

/-- Claim C4: decoding a BigInt with digit count zero builds the canonical zero
through the fresh `_PyLong_New(0)` allocation (not the byte-buffer path), so
two decodes never return the same allocation. -/
theorem intType_zero_digits_fresh_zero (b : JSBigInt) (c1 c2 : Nat)
    (h : b.digitCount = 0) (hne : c1 ≠ c2) :
    IntType.fromJsBigInt b c1 =
        { obSize := 0, digits := [], objId := c1, isPMBigInt := true } ∧
      (IntType.fromJsBigInt b c1).objId ≠ (IntType.fromJsBigInt b c2).objId := by
  have hform : ∀ c : Nat, IntType.fromJsBigInt b c =
      { obSize := 0, digits := [], objId := c, isPMBigInt := true } := by
    intro c
    cases hb : BigIntIsNegative b <;>
      simp [IntType.fromJsBigInt, h, hb, pyLong_New0]
  refine ⟨hform c1, ?_⟩
  rw [hform c1, hform c2]
  simpa using hne

theorem intType_zero_digits_fresh_zero_witness :
    IntType.fromJsBigInt { flags := 0, digitCount := 0, digits := [] } 0 =
        { obSize := 0, digits := [], objId := 0, isPMBigInt := true } ∧
      (IntType.fromJsBigInt { flags := 0, digitCount := 0, digits := [] } 0).objId ≠
        (IntType.fromJsBigInt { flags := 0, digitCount := 0, digits := [] } 1).objId :=
  intType_zero_digits_fresh_zero _ 0 1 rfl (by decide)

/-- Claim C5: the digit-count expression of `toJsBigInt` — `bitCount == 0 ? 1 :
(bitCount - 1) / JS_DIGIT_BIT + 1` — equals the ceiling of the bit count over
the 64-bit digit width, with a minimum of one digit. -/
theorem jsDigitCount_is_ceil_min_one (bitCount : Nat) :
    jsDigitCountOfBits bitCount = max 1 ((bitCount + JS_DIGIT_BIT - 1) / JS_DIGIT_BIT) := by
  unfold jsDigitCountOfBits JS_DIGIT_BIT
  rcases Nat.eq_zero_or_pos bitCount with h | h
  · subst h
    decide
  · rw [if_neg (by omega)]
    have hstep : (bitCount + 64 - 1) / 64 = (bitCount - 1) / 64 + 1 := by
      omega
    rw [hstep, max_eq_right (by omega)]

/-- Claim C8: for a negative source integer, `toJsBigInt` temporarily forces
the stored length `Py_SIZE` positive and restores the original signed length
before returning, leaving the source object's stored length unchanged. -/
theorem toJsBigInt_restores_source_size (p : PyLongObject) (h : p.obSize < 0) :
    (IntType.toJsBigIntForced p).obSize = -p.obSize ∧
      0 < (IntType.toJsBigIntForced p).obSize ∧
      ((IntType.toJsBigInt p).2).obSize = p.obSize := by
  refine ⟨?_, ?_, by rw [toJsBigInt_snd]⟩
  · unfold IntType.toJsBigIntForced
    rw [if_pos h]
  · unfold IntType.toJsBigIntForced
    rw [if_pos h]
    show (0 : Int) < -p.obSize
    omega

theorem toJsBigInt_restores_source_size_witness :
    (IntType.toJsBigIntForced { obSize := -1, digits := [5], objId := 0, isPMBigInt := false }).obSize =
        -({ obSize := -1, digits := [5], objId := 0, isPMBigInt := false } : PyLongObject).obSize ∧
      0 < (IntType.toJsBigIntForced
        { obSize := -1, digits := [5], objId := 0, isPMBigInt := false }).obSize ∧
      ((IntType.toJsBigInt { obSize := -1, digits := [5], objId := 0, isPMBigInt := false }).2).obSize =
        ({ obSize := -1, digits := [5], objId := 0, isPMBigInt := false } : PyLongObject).obSize :=
  toJsBigInt_restores_source_size _ (by decide)

/-! ## Model of the Python/JS value dispatchers (`pyTypeFactory.cc` part of
`src/IntType.cc`) -/

/-- The concrete kind of a Python object, as tested by the CPython type-check
macros used by `pyTypeFactory(PyObject *)`. -/
inductive PyKind where
  | intK
  | boolK
  | strK
  | funcK
  | dictK
  | listK
  | tupleK
  | noneK
  | floatK
  | otherK
deriving DecidableEq, Repr

/-- A Python object as the dispatchers see it: a pointer identity and its kind. -/
structure PyObjModel where
  id : Nat
  kind : PyKind
deriving DecidableEq, Repr

/-- Check `PyLong_Check`: true for `int` and for its subtype `bool`. -/
def PyLong_Check (o : PyObjModel) : Bool := o.kind == .intK || o.kind == .boolK

/-- Check `PyUnicode_Check`. -/
def PyUnicode_Check (o : PyObjModel) : Bool := o.kind == .strK

/-- Check `PyFunction_Check`. -/
def PyFunction_Check (o : PyObjModel) : Bool := o.kind == .funcK

/-- Check `PyDict_Check`. -/
def PyDict_Check (o : PyObjModel) : Bool := o.kind == .dictK

/-- Check `PyList_Check`. -/
def PyList_Check (o : PyObjModel) : Bool := o.kind == .listK

/-- Check `PyTuple_Check`. -/
def PyTuple_Check (o : PyObjModel) : Bool := o.kind == .tupleK

/-- The three proxy handler families of the bridge (`PyDictProxyHandler::family`,
`PyListProxyHandler::family`, `PyObjectProxyHandler::family`). -/
inductive ProxyFamily where
  | dictProxy
  | listProxy
  | objectProxy
deriving DecidableEq, Repr

/-- Enumeration `js::ESClass` — the built-in class returned by `JS::GetBuiltinClass`, with
all classes the dispatcher does not name folded into `other`. -/
inductive ESClass where
  | boolean
  | date
  | promise
  | error
  | function
  | number
  | bigint
  | string
  | array
  | other
deriving DecidableEq, Repr

/-- A JS object as the dispatcher inspects it: proxy status and handler family
(with the Python object held by our own proxy handlers), built-in class,
bound-function and wrapped-Python-function status (with the function recovered
from the engine-reserved slot), buffer support, and the primitive payloads
`js::Unbox` would produce for the boxed classes. -/
structure JSObjModel where
  isProxy : Bool
  proxyFamily : Option ProxyFamily
  proxyPyObject : PyObjModel
  cls : ESClass
  isBoundFunction : Bool
  isNativeCallPyFunc : Bool
  reservedPyFunc : PyObjModel
  isSupportedBuffer : Bool
  boxedBool : Bool
  boxedNum : Nat
  boxedBigInt : JSBigInt
  boxedStr : String
deriving DecidableEq, Repr

/-- A JS value by its engine-level tag (`JS::HandleValue`).  Numbers carry an
uninterpreted bit-pattern payload; symbols carry their description. -/
inductive JSValue where
  | undefined
  | null
  | boolean (b : Bool)
  | number (bits : Nat)
  | string (s : String)
  | symbol (desc : String)
  | bigint (b : JSBigInt)
  | object (o : JSObjModel)
  | magic
deriving DecidableEq, Repr

/-- The `PyType` wrapper hierarchy, with one constructor per C++ wrapper
constructor the dispatchers invoke (so "wraps an existing Python object" and
"built from a JS value" are distinguished exactly as in the source). -/
inductive PyTypeW where
  | NoneT
  | NullT
  | BoolT (b : Bool)
  | FloatT (bits : Nat)
  | IntFromPy (o : PyObjModel)
  | IntFromJs (p : PyLongObject)
  | StrFromPy (o : PyObjModel)
  | StrFromJs (s : String)
  | FuncFromPy (o : PyObjModel)
  | FuncFromJs (v : JSValue)
  | DictFromPy (o : PyObjModel)
  | DictFromJs (v : JSValue)
  | ListFromPy (o : PyObjModel)
  | ListFromJs (o : JSObjModel)
  | TupleFromPy (o : PyObjModel)
  | PyTypeFromPy (o : PyObjModel)
  | DateT (o : JSObjModel)
  | PromiseT (o : JSObjModel)
  | ExceptionT (o : JSObjModel)
  | BufferT (o : JSObjModel)
deriving DecidableEq, Repr

/-- A pending Python exception: its type and message (`PyErr_SetString`). -/
inductive PyExc where
  | typeError
  | systemError
deriving DecidableEq, Repr

/-- The Python error indicator: `none` = no pending error. -/
abbrev PyErrState := Option (PyExc × String)

/-- Model of `JS::ToString` composed with `JS_EncodeStringToUTF8`: the engine's
own string conversion of an arbitrary value, used only to build the
classification-error message. -/
def jsToString : JSValue → String
  | .undefined => "undefined"
  | .null => "null"
  | .boolean b => if b then "true" else "false"
  | .number bits => toString bits
  | .string s => s
  | .symbol desc => "Symbol(" ++ desc ++ ")"
  | .bigint _ => "[BigInt]"
  | .object _ => "[object Object]"
  | .magic => "[magic]"

/-- Model of `pyTypeFactory(PyObject *object)` (`IntType.cc` lines 180-206):
priority-ordered exact-kind checks; an unrecognized kind returns the null
signal.  The Python error state is threaded to show it is never touched. -/
def pyTypeFactoryPy (st : PyErrState) (object : PyObjModel) : Option PyTypeW × PyErrState :=
  if PyLong_Check object then (some (.IntFromPy object), st)
  else if PyUnicode_Check object then (some (.StrFromPy object), st)
  else if PyFunction_Check object then (some (.FuncFromPy object), st)
  else if PyDict_Check object then (some (.DictFromPy object), st)
  else if PyList_Check object then (some (.ListFromPy object), st)
  else if PyTuple_Check object then (some (.TupleFromPy object), st)
  else (none, st)

/-- The part of the JS→Python dispatcher after the proxy short-circuit
(`IntType.cc` lines 245-307): classify by built-in class (bound functions
re-classified as `Function`), unboxing the primitive boxes, and fall through to
a generic `DictType(cx, rval)` wrapper. -/
def pyTypeFactoryObjTail (st : PyErrState) (allocCtr : Nat) (o : JSObjModel)
    (rval : JSValue) : Option PyTypeW × PyErrState :=
  let cls := if o.isBoundFunction then ESClass.function else o.cls
  match cls with
  | .boolean => (some (.BoolT o.boxedBool), st)
  | .date => (some (.DateT o), st)
  | .promise => (some (.PromiseT o), st)
  | .error => (some (.ExceptionT o), st)
  | .function =>
    if o.isNativeCallPyFunc then (some (.FuncFromPy o.reservedPyFunc), st)
    else (some (.FuncFromJs rval), st)
  | .number => (some (.FloatT o.boxedNum), st)
  | .bigint => (some (.IntFromJs (IntType.fromJsBigInt o.boxedBigInt allocCtr)), st)
  | .string => (some (.StrFromJs o.boxedStr), st)
  | .array => (some (.ListFromJs o), st)
  | _ =>
    if o.isSupportedBuffer then (some (.BufferT o), st)
    else (some (.DictFromJs rval), st)

/-- Model of `pyTypeFactory(JSContext *cx, JS::Rooted<JSObject *> *thisObj,
JS::HandleValue rval)` (`IntType.cc` lines 208-318).  `thisObj` is unused by
the source body and therefore omitted; `allocCtr` is the allocation counter
handed to the BigInt decoder.  Symbols and magic values fall through (the
source only prints) to the classification-error tail, which sets a
`TypeError` built from the engine's string conversion and returns `NULL`. -/
def pyTypeFactoryJs (st : PyErrState) (allocCtr : Nat) (rval : JSValue) :
    Option PyTypeW × PyErrState :=
  match rval with
  | .undefined => (some .NoneT, st)
  | .null => (some .NullT, st)
  | .boolean b => (some (.BoolT b), st)
  | .number bits => (some (.FloatT bits), st)
  | .string s => (some (.StrFromJs s), st)
  | .bigint b => (some (.IntFromJs (IntType.fromJsBigInt b allocCtr)), st)
  | .object o =>
    if o.isProxy then
      match o.proxyFamily with
      | some .dictProxy => (some (.DictFromPy o.proxyPyObject), st)
      | some .listProxy => (some (.ListFromPy o.proxyPyObject), st)
      | some .objectProxy => (some (.PyTypeFromPy o.proxyPyObject), st)
      | none => pyTypeFactoryObjTail st allocCtr o rval
    else pyTypeFactoryObjTail st allocCtr o rval
  | .symbol desc =>
    (none, some (.typeError,
      "pythonmonkey cannot yet convert Javascript value of: " ++ jsToString (.symbol desc)))
  | .magic =>
    (none, some (.typeError,
      "pythonmonkey cannot yet convert Javascript value of: " ++ jsToString .magic))

/-- Model of `pyTypeFactorySafe` (`IntType.cc` lines 320-328): run the
dispatcher, then test `PyErr_Occurred()`; on a pending error, clear it and
return a fresh `NullType` wrapper instead of the dispatcher's result. -/
def pyTypeFactorySafe (st : PyErrState) (allocCtr : Nat) (rval : JSValue) :
    Option PyTypeW × PyErrState :=
  let r := pyTypeFactoryJs st allocCtr rval
  if r.2.isSome then
    (some .NullT, none)
  else
    r

/-! ## Behaviour of the dispatchers -/

/-- Every arm of the object tail succeeds and leaves the error state untouched. -/
theorem pyTypeFactoryObjTail_shape (st : PyErrState) (ctr : Nat) (o : JSObjModel)
    (rval : JSValue) :
    (pyTypeFactoryObjTail st ctr o rval).2 = st ∧
      (pyTypeFactoryObjTail st ctr o rval).1.isSome := by
  unfold pyTypeFactoryObjTail
  split
  · split_ifs <;> simp
  · cases hcls : o.cls <;> simp only [hcls] <;>
      first
        | simp
        | (split_ifs <;> simp)

/-- The JS→Python dispatcher either succeeds with the error state untouched, or
returns the null signal with an error set (the classification-error tail). -/
theorem pyTypeFactoryJs_shape (st : PyErrState) (ctr : Nat) (rval : JSValue) :
    ((pyTypeFactoryJs st ctr rval).1.isSome ∧ (pyTypeFactoryJs st ctr rval).2 = st) ∨
      ((pyTypeFactoryJs st ctr rval).1 = none ∧
        ∃ e, (pyTypeFactoryJs st ctr rval).2 = some e) := by
  cases rval with
  | undefined => left; simp [pyTypeFactoryJs]
  | null => left; simp [pyTypeFactoryJs]
  | boolean b => left; simp [pyTypeFactoryJs]
  | number bits => left; simp [pyTypeFactoryJs]
  | string s => left; simp [pyTypeFactoryJs]
  | bigint b => left; simp [pyTypeFactoryJs]
  | object o =>
    left
    cases hp : o.isProxy with
    | false =>
      simpa [pyTypeFactoryJs, hp] using
        (pyTypeFactoryObjTail_shape st ctr o (.object o)).symm.imp id id
    | true =>
      cases hf : o.proxyFamily with
      | none =>
        simpa [pyTypeFactoryJs, hp, hf] using
          (pyTypeFactoryObjTail_shape st ctr o (.object o)).symm.imp id id
      | some fam => cases fam <;> simp [pyTypeFactoryJs, hp, hf]
  | symbol desc => right; simp [pyTypeFactoryJs]
  | magic => right; simp [pyTypeFactoryJs]

/-- Claim C2: a JS object that is one of our own proxies (dict, list or generic
object family) is unwrapped to the identical Python object held by the proxy
handler — the wrapper carries `proxyPyObject` itself, no proxy-of-proxy — and
the error state is untouched. -/
theorem pyTypeFactoryJs_unwraps_own_proxies (st : PyErrState) (ctr : Nat) (o : JSObjModel)
    (fam : ProxyFamily) (hp : o.isProxy = true) (hf : o.proxyFamily = some fam) :
    pyTypeFactoryJs st ctr (.object o) =
      (some (match fam with
        | .dictProxy => .DictFromPy o.proxyPyObject
        | .listProxy => .ListFromPy o.proxyPyObject
        | .objectProxy => .PyTypeFromPy o.proxyPyObject), st) := by
  cases fam <;> simp [pyTypeFactoryJs, hp, hf]

theorem pyTypeFactoryJs_unwraps_own_proxies_witness :
    pyTypeFactoryJs none 0 (.object
      { isProxy := true, proxyFamily := some .dictProxy,
        proxyPyObject := { id := 42, kind := .dictK }, cls := .other,
        isBoundFunction := false, isNativeCallPyFunc := false,
        reservedPyFunc := { id := 0, kind := .otherK }, isSupportedBuffer := false,
        boxedBool := false, boxedNum := 0,
        boxedBigInt := { flags := 0, digitCount := 0, digits := [] }, boxedStr := "" }) =
      (some (.DictFromPy { id := 42, kind := .dictK }), none) :=
  pyTypeFactoryJs_unwraps_own_proxies none 0 _ .dictProxy rfl rfl

/-- Claim C6: a JS value that falls through every recognized classification
(symbols and magic values) makes the dispatcher set a `TypeError` whose message
is built from the engine's own string conversion of the value, and return the
null signal, never a wrapper. -/
theorem pyTypeFactoryJs_unrecognized_sets_error (st : PyErrState) (ctr : Nat)
    (rval : JSValue) (h : (∃ desc, rval = .symbol desc) ∨ rval = .magic) :
    pyTypeFactoryJs st ctr rval =
      (none, some (.typeError,
        "pythonmonkey cannot yet convert Javascript value of: " ++ jsToString rval)) := by
  rcases h with ⟨desc, rfl⟩ | rfl <;> rfl

theorem pyTypeFactoryJs_unrecognized_sets_error_witness :
    pyTypeFactoryJs none 0 (.symbol "tag") =
      (none, some (.typeError,
        "pythonmonkey cannot yet convert Javascript value of: " ++
          jsToString (.symbol "tag"))) :=
  pyTypeFactoryJs_unrecognized_sets_error none 0 _ (Or.inl ⟨"tag", rfl⟩)

/-- Claim C3: the safe variant never leaves the Python error state set and never
returns the null signal; whenever the underlying dispatcher failed, it returns
the canonical `NullType` wrapper with the error cleared. -/
theorem pyTypeFactorySafe_never_errs (st : PyErrState) (ctr : Nat) (rval : JSValue) :
    (pyTypeFactorySafe st ctr rval).2 = none ∧
      (pyTypeFactorySafe st ctr rval).1.isSome ∧
      ((pyTypeFactoryJs st ctr rval).1 = none →
        (pyTypeFactorySafe st ctr rval).1 = some .NullT) := by
  cases h2 : (pyTypeFactoryJs st ctr rval).2 with
  | none =>
    rcases pyTypeFactoryJs_shape st ctr rval with ⟨hs, _⟩ | ⟨_, e, he⟩
    · refine ⟨?_, ?_, ?_⟩
      · simp [pyTypeFactorySafe, h2]
      · simp [pyTypeFactorySafe, h2, hs]
      · intro hn
        rw [hn] at hs
        cases hs
    · rw [he] at h2
      cases h2
  | some e =>
    refine ⟨?_, ?_, ?_⟩
    · simp [pyTypeFactorySafe, h2]
    · simp [pyTypeFactorySafe, h2]
    · intro _
      simp [pyTypeFactorySafe, h2]

theorem pyTypeFactorySafe_never_errs_witness :
    (pyTypeFactorySafe none 0 (.symbol "oops")).2 = none ∧
      (pyTypeFactorySafe none 0 (.symbol "oops")).1.isSome ∧
      ((pyTypeFactoryJs none 0 (.symbol "oops")).1 = none →
        (pyTypeFactorySafe none 0 (.symbol "oops")).1 = some .NullT) :=
  pyTypeFactorySafe_never_errs none 0 (.symbol "oops")

/-- Claim C10: the safe variant decides failure solely by the error indicator
after the call: with an error already pending on entry and a successful
conversion, the converted wrapper is discarded, the pre-existing error is
cleared, and the canonical `NullType` wrapper is returned. -/
theorem pyTypeFactorySafe_discards_on_preexisting_error (e : PyExc × String) (ctr : Nat)
    (rval : JSValue) (v : PyTypeW)
    (h : (pyTypeFactoryJs (some e) ctr rval).1 = some v) :
    pyTypeFactorySafe (some e) ctr rval = (some .NullT, none) := by
  have hstate : (pyTypeFactoryJs (some e) ctr rval).2 = some e := by
    rcases pyTypeFactoryJs_shape (some e) ctr rval with ⟨_, hs⟩ | ⟨hn, _⟩
    · exact hs
    · rw [hn] at h
      cases h
  simp [pyTypeFactorySafe, hstate]

theorem pyTypeFactorySafe_discards_on_preexisting_error_witness :
    pyTypeFactorySafe (some (.typeError, "pending")) 0 .undefined = (some .NullT, none) :=
  pyTypeFactorySafe_discards_on_preexisting_error (.typeError, "pending") 0 .undefined
    .NoneT rfl

/-- Claim C7: a Python object of a kind matched by none of the six checks gets
the "no mapping" null signal, with the error state untouched. -/
theorem pyTypeFactoryPy_unrecognized_no_mapping (st : PyErrState) (o : PyObjModel)
    (h1 : PyLong_Check o = false) (h2 : PyUnicode_Check o = false)
    (h3 : PyFunction_Check o = false) (h4 : PyDict_Check o = false)
    (h5 : PyList_Check o = false) (h6 : PyTuple_Check o = false) :
    pyTypeFactoryPy st o = (none, st) := by
  simp [pyTypeFactoryPy, h1, h2, h3, h4, h5, h6]

theorem pyTypeFactoryPy_unrecognized_no_mapping_witness :
    pyTypeFactoryPy (some (.typeError, "before")) { id := 7, kind := .floatK } =
      (none, some (.typeError, "before")) :=
  pyTypeFactoryPy_unrecognized_no_mapping _ _ rfl rfl rfl rfl rfl rfl

/-- Claim C9: a Python boolean is captured by the first check of the priority
order — `PyLong_Check`, which accepts the `bool` subtype of `int` — so it
produces an `IntType` wrapper, not a Boolean wrapper and not the null signal. -/
theorem pyTypeFactoryPy_bool_is_int (st : PyErrState) (o : PyObjModel)
    (h : o.kind = .boolK) :
    pyTypeFactoryPy st o = (some (.IntFromPy o), st) := by
  have hc : PyLong_Check o = true := by simp [PyLong_Check, h]
  simp [pyTypeFactoryPy, hc]

theorem pyTypeFactoryPy_bool_is_int_witness :
    pyTypeFactoryPy none { id := 1, kind := .boolK } =
      (some (.IntFromPy { id := 1, kind := .boolK }), none) :=
  pyTypeFactoryPy_bool_is_int none _ rfl
